import Mathlib

/-!
Verification development for the domain-expiration WhatsApp bot
(`src/whoisWhatsappBot.js`).

The JavaScript source is shallowly embedded: callbacks become functions on
explicit state, promises become `Except`, JS `Date` objects become
`Option Int` (epoch milliseconds; `none` models an Invalid Date whose
`getTime()` is NaN), and the external JS primitives (the regex engine,
`new Date(string)` parsing, the whois/RDAP network, the Baileys socket)
are oracle parameters supplied to the embedded functions.
-/

namespace DomainBot

/-- A JS `Date` value: `some t` is a date with epoch-millisecond timestamp `t`,
`none` is an Invalid Date (a `Date` object whose `getTime()` is NaN).
Both are truthy in JS. -/
abbrev JsDate := Option Int

/-! ## ExpirationResolver: WHOIS primary lookup (`checkWithWhois`, lines 145-190) -/

/-- The six expiration-field regexes of `expiryPatterns` (source lines 157-164),
in their source order:
1. `/Expiration Date:\s*(.+)/i`
2. `/Registry Expiry Date:\s*(.+)/i`
3. `/Registrar Registration Expiration Date:\s*(.+)/i`
4. `/Domain Expiration Date:\s*(.+)/i`
5. `/Expires on:\s*(.+)/i`
6. `/Expiry date:\s*(.+)/i` -/
inductive ExpiryPattern
  | expirationDate
  | registryExpiry
  | registrarExpiration
  | domainExpiration
  | expiresOn
  | expiryDate
deriving DecidableEq

/-- The pattern list in the order the source declares and scans it
(lines 157-164): the generic `Expiration Date` pattern comes first. -/
def expiryPatterns : List ExpiryPattern :=
  [ .expirationDate, .registryExpiry, .registrarExpiration,
    .domainExpiration, .expiresOn, .expiryDate ]

/-- Modelled from the spec: the spec (§4.2 step 2) lists the patterns in the
priority order "registry expiry, registrar expiry, generic expiration date,
expires on, expiry date". This list exists only to compare the spec's claimed
order with the source's `expiryPatterns`. -/
def specOrderPatterns : List ExpiryPattern :=
  [ .registryExpiry, .registrarExpiration, .expirationDate,
    .expiresOn, .expiryDate ]

/-- The outcome of `whois.lookup`'s raw text as far as the source inspects it:
`rateLimited` is `data.includes("Rate limit exceeded")` (line 151), and
`matchGroup p` is `data.match(p)` restricted to the trimmed first capture
group `match[1].trim()` (`none` when the regex does not match).  The regex
engine itself is a JS primitive, so it enters the model as this oracle. -/
structure WhoisData where
  rateLimited : Bool
  matchGroup : ExpiryPattern → Option String

/-- The result of the `whois.lookup` callback: the error argument `err`, or
the response text `data`. -/
inductive WhoisNet
  | err (e : String)
  | ok (data : WhoisData)

/-- The pattern-scanning `for` loop of lines 166-180. The accumulator is the
mutable `expiryDate` variable (`none` = still `null`).  On a regex match the
loop assigns `expiryDate = new Date(match[1].trim())` (so an unparseable date
leaves an Invalid Date, `some none`, in the variable) and `break`s only when
`!isNaN(expiryDate.getTime())`.  `parse` is the `new Date(string)` oracle. -/
def extractLoop (parse : String → JsDate) (d : WhoisData) :
    List ExpiryPattern → Option JsDate → Option JsDate
  | [], acc => acc
  | p :: ps, acc =>
    match d.matchGroup p with
    | none => extractLoop parse d ps acc
    | some s =>
      match parse s with
      | some t => some (some t)
      | none => extractLoop parse d ps (some none)

/-- `checkWithWhois` (lines 145-190): rejects with the lookup error, resolves
`null` on rate limiting, otherwise resolves the `for` loop's `expiryDate`
(which, by the truthiness check `if (expiryDate)` on line 182, is passed
through even when it is an Invalid Date). -/
def checkWithWhois (parse : String → JsDate) (w : WhoisNet) :
    Except String (Option JsDate) :=
  match w with
  | .err e => .error e
  | .ok d =>
    if d.rateLimited then .ok none
    else .ok (extractLoop parse d expiryPatterns none)

/-! ## ExpirationResolver: RDAP fallback (`checkWithRdap`, lines 193-224) -/

/-- One entry of the RDAP response's `events` array. `eventDate` is `none`
when the field is absent or empty (both falsy on line 211). -/
structure RdapEvent where
  eventAction : String
  eventDate : Option String
deriving DecidableEq

/-- The outcome of the `axios.get` call to `https://rdap.org/domain/{name}`:
a thrown error (network failure, timeout, non-2xx status), or a response whose
`data.events` array is present (`some`) or missing (`none`). -/
inductive RdapNet
  | err (e : String)
  | ok (events : Option (List RdapEvent))

/-- The `events.find` callback of lines 206-209. -/
def rdapExpirationEvent (events : List RdapEvent) : Option RdapEvent :=
  events.find? fun ev =>
    ev.eventAction == "expiration" || ev.eventAction == "registrationExpiration"

/-- The message of the error rethrown on line 222. -/
def rdapFailureMsg (e : String) : String :=
  "Domain expiration date couldn't be retrieved: " ++ e

/-- The message thrown on line 219 when no usable expiration event exists. -/
def noExpirationMsg : String :=
  "RDAP response did not contain expiration information"

/-- `checkWithRdap` (lines 193-224): on a response with an expiration-action
event carrying a present date string that parses to a valid timestamp, return
that timestamp; every other path falls through to the line-219 throw, and the
catch block rewraps any error into the line-222 message. -/
def checkWithRdap (parse : String → JsDate) (r : RdapNet) : Except String Int :=
  match r with
  | .err e => .error (rdapFailureMsg e)
  | .ok events? =>
    let found : Option Int :=
      match events? with
      | none => none
      | some evs =>
        match rdapExpirationEvent evs with
        | none => none
        | some ev =>
          match ev.eventDate with
          | none => none
          | some ds => parse ds
    match found with
    | some t => .ok t
    | none => .error (rdapFailureMsg noExpirationMsg)

/-! ## ExpirationResolver: `checkDomainExpiration` (lines 130-142) -/

/-- `checkDomainExpiration` (lines 130-142): `await checkWithWhois`; if it
threw, the `catch` rethrows the same error (so RDAP is never consulted); a
truthy resolved value (any `Date` object, valid or not) is returned; only a
`null` resolution falls through to `checkWithRdap`. -/
def checkDomainExpiration (parse : String → JsDate) (w : WhoisNet)
    (r : RdapNet) : Except String JsDate :=
  match checkWithWhois parse w with
  | .error e => .error e
  | .ok (some d) => .ok d
  | .ok none => (checkWithRdap parse r).map (fun t => (some t : JsDate))

/-- The spec's `source` tag of an `ExpirationResult`: which protocol produced
the date. -/
inductive Source
  | Primary
  | Fallback
deriving DecidableEq

/-- Modelled from the spec: the spec's `ExpirationResolver.resolve` returning
an `ExpirationResult` with a `source ∈ {Primary, Fallback}` tag (§3, §4.2).
The date component follows the source's `checkDomainExpiration`; the tag
records which branch of that function produced it. -/
def resolveWithSource (parse : String → JsDate) (w : WhoisNet)
    (r : RdapNet) : Except String (JsDate × Source) :=
  match checkWithWhois parse w with
  | .error e => .error e
  | .ok (some d) => .ok (d, .Primary)
  | .ok none =>
    (checkWithRdap parse r).map (fun t => ((some t : JsDate), Source.Fallback))

/-! ## Scheduler: alert classification (`startBot`, lines 323-342 and 361-376) -/

/-- Milliseconds per day: `1000 * 60 * 60 * 24` (lines 324 and 362). -/
def msPerDay : Int := 1000 * 60 * 60 * 24

/-- `daysUntilExpiry = Math.floor((expireDate - now) / msPerDay)`
(lines 324 and 362); `Int.fdiv` is floor division, matching `Math.floor`
of the real quotient. -/
def daysUntilExpiry (expiry now : Int) : Int :=
  Int.fdiv (expiry - now) msPerDay

/-- The "expired" alert text of lines 327 and 365. -/
def expiredMsg (domain : String) : String :=
  "🚨 ATTENTION! " ++ domain ++ " appears to have expired! Check immediately!"

/-- The "warning" alert text of lines 331 and 369. -/
def warningMsg (domain : String) (days : Int) : String :=
  "⚠️ Warning: Domain " ++ domain ++ " will expire in " ++ toString days ++ " days!"

/-- The "info" message text of line 335 (startup run only). -/
def infoMsg (domain : String) (days : Int) : String :=
  "ℹ️ Domain " ++ domain ++ " will expire in " ++ toString days ++ " days."

/-- The startup run's classification (lines 323-338): every branch sends a
message. -/
def startupCheckMessage (domain : String) (expiry now : Int) : String :=
  let days := daysUntilExpiry expiry now
  if expiry < now then expiredMsg domain
  else if days ≤ 30 then warningMsg domain days
  else infoMsg domain days

/-- The daily run's classification (lines 361-372): the info tier sends
nothing (`none`). -/
def dailyCheckMessage (domain : String) (expiry now : Int) : Option String :=
  let days := daysUntilExpiry expiry now
  if expiry < now then some (expiredMsg domain)
  else if days ≤ 30 then some (warningMsg domain days)
  else none

/-- The message the startup run hands to `sendWhatsAppMessage`, as a function
of the resolution outcome: a classified alert on success (lines 326-337), the
`catch` block's error report on failure (line 341, interpolating
`error.message`). -/
def startupRun (domain : String) (res : Except String Int) (now : Int) :
    Option String :=
  match res with
  | .ok expiry => some (startupCheckMessage domain expiry now)
  | .error e => some ("Whois Bot Error: " ++ e)

/-- The message the daily scheduled job hands to `sendWhatsAppMessage`:
expired/warning alerts only on success (lines 364-372), and the `catch`
block's error report on failure (line 375). -/
def dailyRun (domain : String) (res : Except String Int) (now : Int) :
    Option String :=
  match res with
  | .ok expiry => dailyCheckMessage domain expiry now
  | .error e => some ("Whois Bot Error: " ++ e)

/-! ## SessionManager: the `startWhatsApp` event handlers (lines 18-127)

The module-level mutable variables (lines 9-15) and the pending `connect`
promise become one explicit state record; each Baileys event handler and each
timer callback becomes a function on that state.  `outcome` is the settled
value of the promise returned by `startWhatsApp` (`none` while pending); a
settled promise ignores later `resolve`/`reject` calls. -/

/-- `QR_MAX_RETRY = 3` (line 13). -/
def QR_MAX_RETRY : Nat := 3

/-- `QR_TIMEOUT_SECONDS = 60` (line 15). -/
def QR_TIMEOUT_SECONDS : Nat := 60

deriving instance DecidableEq for Except

/-- The mutable connection state: `isConnected` (line 10), `qrDisplayed`
(line 11), whether the 60-second QR timer is pending (`qrTimeout`, line 12),
`qrRetryCount` (line 14), and the settled value of the `connect` promise. -/
structure BotState where
  isConnected : Bool
  qrDisplayed : Bool
  qrTimerActive : Bool
  qrRetryCount : Nat
  outcome : Option (Except String Unit)
deriving DecidableEq

/-- The initial values of the module-level variables (lines 9-15) with the
promise still pending. -/
def botInit : BotState :=
  { isConnected := false
    qrDisplayed := false
    qrTimerActive := false
    qrRetryCount := 0
    outcome := none }

/-- `resolve(sock)`: settles the promise successfully if still pending. -/
def settleOk (s : BotState) : BotState :=
  if s.outcome.isNone then { s with outcome := some (Except.ok ()) } else s

/-- `reject(new Error(e))`: settles the promise with error `e` if still
pending. -/
def settleErr (e : String) (s : BotState) : BotState :=
  if s.outcome.isNone then { s with outcome := some (Except.error e) } else s

/-- The `connection.update` handler's QR branch (lines 45-64): a challenge is
displayed, the counter incremented and the 60-second timer armed only when
`!qrDisplayed && qrRetryCount < QR_MAX_RETRY`; otherwise the event is a
no-op.  The boolean records whether a QR code was displayed. -/
def onQr (s : BotState) : BotState × Bool :=
  if !s.qrDisplayed && s.qrRetryCount < QR_MAX_RETRY then
    ({ s with
        qrDisplayed := true
        qrRetryCount := s.qrRetryCount + 1
        qrTimerActive := true }, true)
  else (s, false)

/-- The QR timer callback (lines 59-63): after 60 seconds it clears
`qrDisplayed` so the next QR event can display again. -/
def onQrTimer (s : BotState) : BotState :=
  if s.qrTimerActive then
    { s with qrDisplayed := false, qrTimerActive := false }
  else s

/-- The `connection === "open"` branch (lines 92-104): clear the QR timer,
reset the counter to 0, set the connectivity flag, resolve the promise. -/
def onOpen (s : BotState) : BotState :=
  settleOk { s with
              qrTimerActive := false
              qrRetryCount := 0
              isConnected := true }

/-- The `messages.upsert` handler (lines 108-114): only when not yet marked
connected, set the connectivity flag and resolve the promise; the QR timer
and the retry counter are not touched. -/
def onMessagesUpsert (s : BotState) : BotState :=
  if !s.isConnected then settleOk { s with isConnected := true } else s

/-- The global connection-timeout callback (lines 117-125), armed for
`QR_MAX_RETRY * QR_TIMEOUT_SECONDS * 1000 + 10000` ms: when still not
connected it rejects only if `qrRetryCount >= QR_MAX_RETRY`; otherwise it
merely logs and the promise stays pending. -/
def onGlobalTimeout (s : BotState) : BotState :=
  if !s.isConnected then
    if QR_MAX_RETRY ≤ s.qrRetryCount then
      settleErr "Maximum QR code attempts reached" s
    else s
  else s

/-- `String.toNat`-free rendering of `lastDisconnect?.error?.output?.statusCode`
in the line-90 error message (`undefined` when absent). -/
def statusCodeText : Option Nat → String
  | none => "undefined"
  | some n => toString n

/-- The `connection === "close"` branch (lines 66-91): drop the connectivity
flag and the QR timer; status codes 401 and 408 reject the promise, any other
code schedules the 5-second reconnect timer (modelled as the separate
`reconnectTimer` event). -/
def onClose (code : Option Nat) (s : BotState) : BotState :=
  if code = some 401 ∨ code = some 408 then
    settleErr ("Connection closed with status code: " ++ statusCodeText code)
      { s with isConnected := false, qrTimerActive := false }
  else { s with isConnected := false, qrTimerActive := false }

/-- The 5-second reconnect callback (lines 80-88) followed by the re-entered
`startWhatsApp` preamble (lines 22-28): reset the counter when it had
saturated, then clear the QR timer and the display flag. -/
def onReconnectTimer (s : BotState) : BotState :=
  if QR_MAX_RETRY ≤ s.qrRetryCount then
    { s with qrRetryCount := 0, qrTimerActive := false, qrDisplayed := false }
  else { s with qrTimerActive := false, qrDisplayed := false }

/-- The serialized event stream the handlers consume. -/
inductive BotEvent
  | qr
  | qrTimer
  | connOpen
  | connClose (code : Option Nat)
  | reconnectTimer
  | messagesUpsert
  | globalTimeout
deriving DecidableEq

/-- One event dispatch; the boolean is true exactly when a QR challenge was
displayed by this event. -/
def step (s : BotState) : BotEvent → BotState × Bool
  | .qr => onQr s
  | .qrTimer => (onQrTimer s, false)
  | .connOpen => (onOpen s, false)
  | .connClose c => (onClose c s, false)
  | .reconnectTimer => (onReconnectTimer s, false)
  | .messagesUpsert => (onMessagesUpsert s, false)
  | .globalTimeout => (onGlobalTimeout s, false)

/-- Run a sequence of events. -/
def run (s : BotState) : List BotEvent → BotState
  | [] => s
  | e :: es => run (step s e).1 es

/-- How many QR challenges a sequence of events displays. -/
def issuedCount (s : BotState) : List BotEvent → Nat
  | [] => 0
  | e :: es => (if (step s e).2 then 1 else 0) + issuedCount (step s e).1 es

/-- Events that stay within one connection cycle: everything except a
successful open (which resets the counter, line 101) and the reconnect
path's re-entry into `startWhatsApp` (lines 83-86). -/
def cycleEvent : BotEvent → Bool
  | .connOpen => false
  | .reconnectTimer => false
  | _ => true

/-- A trace that stays within one connection cycle. -/
def withinCycle (evs : List BotEvent) : Bool :=
  evs.all cycleEvent

/-! ## Notifier: `ensureWhatsAppConnection` and `sendWhatsAppMessage`
(lines 227-283) -/

/-- The connectivity facts the Notifier reads: `isConnected`, `sock` non-null,
and `sock.user` present. -/
structure ConnState where
  isConnected : Bool
  sockPresent : Bool
  sockUser : Bool
deriving DecidableEq

/-- The liveness test `isConnected && sock && sock.user` (lines 231, 247). -/
def connLive (c : ConnState) : Bool :=
  c.isConnected && c.sockPresent && c.sockUser

/-- The `while (retries < maxRetries)` loop of `ensureWhatsAppConnection`
(lines 230-245).  `restart i` is the oracle for the `i`-th
`await startWhatsApp()` call (line 240) together with the 10-second settling
wait: it either throws or yields the connectivity facts observed afterwards.
Fuel counts the remaining loop iterations; when it runs out the function
returns the final liveness test (line 247). -/
def ensureLoop (restart : Nat → Except String ConnState) :
    Nat → Nat → ConnState → Except String Bool
  | 0, _, c => Except.ok (connLive c)
  | n + 1, i, c =>
    if connLive c then Except.ok true
    else if !c.sockPresent || !c.isConnected then
      match restart i with
      | .error e => .error e
      | .ok c2 => ensureLoop restart n (i + 1) c2
    else ensureLoop restart n (i + 1) c

/-- `ensureWhatsAppConnection(maxRetries = 3)` (line 227) as called by
`sendWhatsAppMessage` (line 254, with the default). -/
def ensureWhatsAppConnection (restart : Nat → Except String ConnState)
    (c : ConnState) : Except String Bool :=
  ensureLoop restart 3 0 c

/-- The platform address domain appended on line 271. -/
def waSuffix : String := "@s.whatsapp.net"

/-- `pat` is a leading segment of `l` (helper for the substring test of
`String.prototype.includes`). -/
def leadsList : List Char → List Char → Bool
  | [], _ => true
  | _ :: _, [] => false
  | a :: pat, b :: l => a = b && leadsList pat l

/-- `l` contains `pat` as a contiguous segment: the JS
`String.prototype.includes` test of line 270. -/
def hasSubstr (pat : List Char) : List Char → Bool
  | [] => pat.isEmpty
  | b :: rest => leadsList pat (b :: rest) || hasSubstr pat rest

/-- The jid normalization of lines 270-271:
`recipient.includes("@s.whatsapp.net") ? recipient : recipient + suffix`. -/
def normalizeJid (recipient : String) : String :=
  if hasSubstr waSuffix.toList recipient.toList then recipient
  else recipient ++ waSuffix

/-- The environment `sendWhatsAppMessage` runs in: the restart oracle and
initial connectivity for `ensureWhatsAppConnection`, the configured
`process.env.RECIPIENT_NUMBER` (`none` when unset), and the
`sock.sendMessage jid {text}` oracle, which returns a result or throws. -/
structure SendEnv where
  restart : Nat → Except String ConnState
  conn : ConnState
  recipient : Option String
  sendMessage : String → String → Except String String

/-- `sendWhatsAppMessage` (lines 251-283).  The whole body sits in a
`try`/`catch` that converts every thrown error into a `null` return, so the
embedding is a total function; the second component records whether
`sock.sendMessage` was invoked.  An unset or empty `RECIPIENT_NUMBER` is
falsy on line 264 and yields `null` before any send. -/
def sendWhatsAppMessage (env : SendEnv) (message : String) :
    Option String × Bool :=
  match ensureWhatsAppConnection env.restart env.conn with
  | .error _ => (none, false)
  | .ok false => (none, false)
  | .ok true =>
    match env.recipient with
    | none => (none, false)
    | some r =>
      if r = "" then (none, false)
      else
        match env.sendMessage (normalizeJid r) message with
        | .error _ => (none, true)
        | .ok res => (some res, true)

/-! ## Concrete inputs used by witnesses and counterexamples -/

/-- A `new Date` oracle for the RDAP date string `2025-09-14T04:00:00Z`. -/
def cexParse1 : String → JsDate := fun s =>
  if s = "2025-09-14T04:00:00Z" then some 1757822400000 else none

/-- An RDAP response whose `events` array holds a parseable expiration
event. -/
def cexRdap1 : RdapNet :=
  RdapNet.ok
    (some [{ eventAction := "expiration"
             eventDate := some "2025-09-14T04:00:00Z" }])

/-- The match groups produced by a whois response text containing both
`Registry Expiry Date: 2025-06-01` and
`Registrar Registration Expiration Date: 2030-06-01`: the generic regex
`/Expiration Date:\s*(.+)/i` also matches inside the registrar line, so
its group is `2030-06-01`, while the registry pattern's group is
`2025-06-01`. -/
def cexWhois2 : WhoisData where
  rateLimited := false
  matchGroup := fun p =>
    match p with
    | .expirationDate => some "2030-06-01"
    | .registryExpiry => some "2025-06-01"
    | .registrarExpiration => some "2030-06-01"
    | _ => none

/-- A `new Date` oracle for the two date strings of `cexWhois2`. -/
def cexParse2 : String → JsDate := fun s =>
  if s = "2025-06-01" then some 1748736000000
  else if s = "2030-06-01" then some 1906502400000
  else none

/-- Match groups of a whois text whose only expiration field is a generic
`Expiration Date: 2026-01-01` line. -/
def primWhois : WhoisData where
  rateLimited := false
  matchGroup := fun p =>
    match p with
    | .expirationDate => some "2026-01-01"
    | _ => none

/-- A `new Date` oracle for `2026-01-01`. -/
def primParse : String → JsDate := fun s =>
  if s = "2026-01-01" then some 1767225600000 else none

/-- A rate-limited whois response (`Rate limit exceeded` in the text). -/
def rlWhois : WhoisData where
  rateLimited := true
  matchGroup := fun _ => none

/-! ## C1: fallback on primary failure -/

/-- C1, counterexample. The claim says a thrown primary-protocol error is
recovered by querying the RDAP fallback.  At a concrete input where
`whois.lookup` reports a connection error and the RDAP server would answer
with a valid expiration date, `checkDomainExpiration` nevertheless propagates
the whois error: the fallback is not consulted and the lookup does not
recover. -/
theorem C1_error_skips_fallback_cex :
    checkDomainExpiration cexParse1 (WhoisNet.err "whois: connection refused")
        cexRdap1 = Except.error "whois: connection refused" ∧
    checkWithRdap cexParse1 cexRdap1 = Except.ok 1757822400000 :=
  ⟨rfl, rfl⟩

/-- C1, amended: `checkDomainExpiration` queries the RDAP fallback exactly
when the whois promise resolves `null` (rate limiting, or no pattern yielded
a date); a whois protocol error (a rejected lookup) propagates to the caller
without consulting the fallback, and when the whois result was `null` a
fallback failure propagates. -/
theorem C1_fallback_only_after_null (parse : String → JsDate) (w : WhoisNet)
    (r : RdapNet) (e : String) :
    (checkWithWhois parse w = Except.ok none →
      checkDomainExpiration parse w r
        = (checkWithRdap parse r).map (fun t => (some t : JsDate))) ∧
    (checkWithWhois parse w = Except.error e →
      checkDomainExpiration parse w r = Except.error e) ∧
    (∀ d, w = WhoisNet.ok d → d.rateLimited = true →
      checkWithWhois parse w = Except.ok none) := by
  refine ⟨?_, ?_, ?_⟩
  · intro h
    simp only [checkDomainExpiration, h]
  · intro h
    simp only [checkDomainExpiration, h]
  · intro d hw hrl
    subst hw
    simp only [checkWithWhois, hrl, if_true]

/-- C1, witness: the amended theorem applied at a rate-limited whois response
with the concrete RDAP answer. -/
theorem C1_fallback_only_after_null_witness :
    checkDomainExpiration cexParse1 (WhoisNet.ok rlWhois) cexRdap1
      = Except.ok (some 1757822400000) := by
  have h := C1_fallback_only_after_null cexParse1 (WhoisNet.ok rlWhois)
    cexRdap1 ""
  rw [h.1 (h.2.2 rlWhois rfl rfl)]
  rfl

/-! ## C2: pattern priority order -/

/-- The first pattern of a list whose match group parses to a valid
timestamp, in list order (used to state which pattern "wins"). -/
def firstValidDate (parse : String → JsDate) (d : WhoisData)
    (ps : List ExpiryPattern) : Option Int :=
  ps.findSome? fun p => (d.matchGroup p).bind parse

/-- The scanning loop returns the first valid date of the pattern list,
whatever Invalid-Date residue (`some none`) an earlier unparseable match left
in the accumulator. -/
theorem extractLoop_eq_firstValidDate (parse : String → JsDate)
    (d : WhoisData) :
    ∀ (ps : List ExpiryPattern) (acc : Option JsDate) (t : Int),
      acc = none ∨ acc = some none →
      firstValidDate parse d ps = some t →
      extractLoop parse d ps acc = some (some t) := by
  intro ps
  induction ps with
  | nil =>
    intro acc t _ h
    simp [firstValidDate, List.findSome?] at h
  | cons p ps ih =>
    intro acc t hacc h
    cases hm : d.matchGroup p with
    | none =>
      simp only [firstValidDate, List.findSome?_cons, hm, Option.none_bind]
        at h
      simp only [extractLoop, hm]
      exact ih acc t hacc h
    | some s =>
      cases hp : parse s with
      | none =>
        simp only [firstValidDate, List.findSome?_cons, hm, Option.some_bind,
          hp] at h
        simp only [extractLoop, hm, hp]
        exact ih (some none) t (Or.inr rfl) h
      | some u =>
        simp only [firstValidDate, List.findSome?_cons, hm, Option.some_bind,
          hp] at h
        simp only [extractLoop, hm, hp]
        cases h
        rfl

/-- C2, counterexample. The claim fixes the priority order as registry
expiry, registrar expiry, generic expiration date, expires-on, expiry-date.
At a whois response containing `Registry Expiry Date: 2025-06-01` and
`Registrar Registration Expiration Date: 2030-06-01` (the generic
`/Expiration Date:/i` regex matches inside the registrar line), the code's
scan returns `2030-06-01`, while the claimed order would return the registry
date `2025-06-01` — so the patterns are not checked in the claimed order. -/
theorem C2_pattern_order_cex :
    checkWithWhois cexParse2 (WhoisNet.ok cexWhois2)
      = Except.ok (some (some 1906502400000)) ∧
    extractLoop cexParse2 cexWhois2 specOrderPatterns none
      = some (some 1748736000000) ∧
    (1906502400000 : Int) ≠ 1748736000000 :=
  ⟨rfl, rfl, by decide⟩

/-- C2, amended: the patterns are checked in the source's declared order —
generic `Expiration Date` first, then `Registry Expiry Date`,
`Registrar Registration Expiration Date`, `Domain Expiration Date`,
`Expires on`, `Expiry date` — and the first pattern in that order whose
match parses to a syntactically valid timestamp determines the non-rate-
limited whois result; later patterns are then not consulted. -/
theorem C2_source_pattern_order (parse : String → JsDate) (d : WhoisData)
    (t : Int) :
    d.rateLimited = false →
    firstValidDate parse d expiryPatterns = some t →
    checkWithWhois parse (WhoisNet.ok d) = Except.ok (some (some t)) := by
  intro hrl h
  simp only [checkWithWhois, hrl, Bool.false_eq_true, if_false]
  rw [extractLoop_eq_firstValidDate parse d expiryPatterns none t
    (Or.inl rfl) h]

/-- C2, witness: the amended theorem applied at the concrete two-date whois
response; the first valid pattern in source order is the generic one. -/
theorem C2_source_pattern_order_witness :
    checkWithWhois cexParse2 (WhoisNet.ok cexWhois2)
      = Except.ok (some (some 1906502400000)) :=
  C2_source_pattern_order cexParse2 cexWhois2 1906502400000 rfl rfl

/-! ## C8: source tag of the result -/

/-- C8: the spec-side `resolveWithSource` (the `ExpirationResult` with its
`source` tag) refines the source's `checkDomainExpiration`: the date
components agree on every input, a date the whois scan produced is tagged
`Primary`, and a date obtained from the RDAP expiration event after a `null`
whois result is tagged `Fallback`. -/
theorem C8_result_source_tag (parse : String → JsDate) (w : WhoisNet)
    (r : RdapNet) :
    Except.map Prod.fst (resolveWithSource parse w r)
      = checkDomainExpiration parse w r ∧
    (∀ d, checkWithWhois parse w = Except.ok (some d) →
      resolveWithSource parse w r = Except.ok (d, Source.Primary)) ∧
    (∀ t, checkWithWhois parse w = Except.ok none →
      checkWithRdap parse r = Except.ok t →
      resolveWithSource parse w r
        = Except.ok ((some t : JsDate), Source.Fallback)) := by
  refine ⟨?_, ?_, ?_⟩
  · simp only [resolveWithSource, checkDomainExpiration]
    cases h : checkWithWhois parse w with
    | error e => rfl
    | ok o =>
      cases o with
      | none =>
        cases hr : checkWithRdap parse r with
        | error e => rfl
        | ok t => rfl
      | some d => rfl
  · intro d h
    simp only [resolveWithSource, h]
  · intro t h hr
    simp only [resolveWithSource, h, hr]
    rfl

/-- C8, witness: the refinement applied at a whois response with a generic
expiration field (tagged `Primary`) and at a rate-limited whois response
answered by the RDAP fallback (tagged `Fallback`). -/
theorem C8_result_source_tag_witness :
    resolveWithSource primParse (WhoisNet.ok primWhois) cexRdap1
      = Except.ok (some 1767225600000, Source.Primary) ∧
    resolveWithSource cexParse1 (WhoisNet.ok rlWhois) cexRdap1
      = Except.ok (some 1757822400000, Source.Fallback) :=
  ⟨(C8_result_source_tag primParse (WhoisNet.ok primWhois) cexRdap1).2.1
      (some 1767225600000) rfl,
   (C8_result_source_tag cexParse1 (WhoisNet.ok rlWhois) cexRdap1).2.2
      1757822400000 rfl rfl⟩

/-! ## C3: alert-tier classification -/

/-- C3: for a resolved expiration and a current time, expiry strictly before
now gives the "expired" alert on both runs; otherwise the day count
`floor((expiry - now) / 1 day)` is at least 0, and a count of at most 30
gives the "warning" alert (whose text embeds the count) on both runs; a
larger count gives the "info" message on the startup run while the daily run
sends nothing. -/
theorem C3_alert_classification (domain : String) (expiry now : Int) :
    (expiry < now →
      startupCheckMessage domain expiry now = expiredMsg domain ∧
      dailyCheckMessage domain expiry now = some (expiredMsg domain)) ∧
    (now ≤ expiry → 0 ≤ daysUntilExpiry expiry now) ∧
    (now ≤ expiry → daysUntilExpiry expiry now ≤ 30 →
      startupCheckMessage domain expiry now
        = warningMsg domain (daysUntilExpiry expiry now) ∧
      dailyCheckMessage domain expiry now
        = some (warningMsg domain (daysUntilExpiry expiry now)) ∧
      ∃ a b, warningMsg domain (daysUntilExpiry expiry now)
        = a ++ toString (daysUntilExpiry expiry now) ++ b) ∧
    (now ≤ expiry → 30 < daysUntilExpiry expiry now →
      startupCheckMessage domain expiry now
        = infoMsg domain (daysUntilExpiry expiry now) ∧
      dailyCheckMessage domain expiry now = none) := by
  refine ⟨?_, ?_, ?_, ?_⟩
  · intro h
    constructor <;> simp [startupCheckMessage, dailyCheckMessage, h]
  · intro h
    exact Int.fdiv_nonneg (by omega) (by norm_num [msPerDay])
  · intro h hd
    have hlt : ¬ expiry < now := by omega
    refine ⟨?_, ?_, ?_⟩
    · simp [startupCheckMessage, hlt, hd]
    · simp [dailyCheckMessage, hlt, hd]
    · exact ⟨"⚠️ Warning: Domain " ++ domain ++ " will expire in ",
        " days!", rfl⟩
  · intro h hd
    have hlt : ¬ expiry < now := by omega
    have hle : ¬ daysUntilExpiry expiry now ≤ 30 := by omega
    constructor <;>
      simp [startupCheckMessage, dailyCheckMessage, hlt, hle]

/-- C3, witness: the classification at the spec's own examples — an expiry
10 days ahead gives the warning on both runs with "10" embedded, an expiry
90 days ahead gives the info message on startup and nothing on the daily
run, and an expired domain alerts on both runs. -/
theorem C3_alert_classification_witness :
    dailyCheckMessage "example.com" 864000000 0
      = some (warningMsg "example.com" 10) ∧
    startupCheckMessage "example.com" 7776000000 0 = infoMsg "example.com" 90 ∧
    dailyCheckMessage "example.com" 7776000000 0 = none ∧
    startupCheckMessage "example.com" 1704067200000 1706745600000
      = expiredMsg "example.com" := by
  have h10 := (C3_alert_classification "example.com" 864000000 0).2.2.1
    (by decide) (by decide)
  have h90 := (C3_alert_classification "example.com" 7776000000 0).2.2.2
    (by decide) (by decide)
  have hexp := (C3_alert_classification "example.com" 1704067200000
    1706745600000).1 (by decide)
  have hd10 : daysUntilExpiry 864000000 0 = 10 := by decide
  have hd90 : daysUntilExpiry 7776000000 0 = 90 := by decide
  refine ⟨?_, ?_, h90.2, hexp.1⟩
  · rw [h10.2.1, hd10]
  · rw [h90.1, hd90]

/-! ## C4: error reporting on resolution failure -/

/-- C4, counterexample. The claim says the daily run only logs a resolution
failure and dispatches no message; but the daily job's `catch` block (line
375) hands an error report to `sendWhatsAppMessage` exactly like the startup
run does. -/
theorem C4_daily_error_report_cex :
    dailyRun "example.com" (Except.error "lookup failed") 0
      = some "Whois Bot Error: lookup failed" :=
  rfl

/-- C4, amended: on any failure resolving the domain, both the startup run
and the daily run dispatch the "Whois Bot Error" report via the Notifier. -/
theorem C4_both_runs_report_errors (domain : String) (e : String) (now : Int) :
    startupRun domain (Except.error e) now
      = some ("Whois Bot Error: " ++ e) ∧
    dailyRun domain (Except.error e) now
      = some ("Whois Bot Error: " ++ e) :=
  ⟨rfl, rfl⟩

/-! ## Session-machine lemmas -/

/-- Settling the promise does not touch the retry counter. -/
theorem settleOk_qrRetryCount (s : BotState) :
    (settleOk s).qrRetryCount = s.qrRetryCount := by
  unfold settleOk; split <;> rfl

/-- Settling the promise with an error does not touch the retry counter. -/
theorem settleErr_qrRetryCount (e : String) (s : BotState) :
    (settleErr e s).qrRetryCount = s.qrRetryCount := by
  unfold settleErr; split <;> rfl

/-- One step keeps the retry counter at most `QR_MAX_RETRY`. -/
theorem step_qrRetryCount_le (s : BotState) (e : BotEvent)
    (h : s.qrRetryCount ≤ QR_MAX_RETRY) :
    (step s e).1.qrRetryCount ≤ QR_MAX_RETRY := by
  cases e with
  | qr =>
    simp only [step, onQr]
    split
    · next hc =>
      simp only [Bool.and_eq_true, Bool.not_eq_true', decide_eq_true_eq]
        at hc
      simpa using hc.2
    · exact h
  | qrTimer =>
    simp only [step, onQrTimer]
    split <;> exact h
  | connOpen =>
    simp only [step, onOpen, settleOk_qrRetryCount]
    exact Nat.zero_le _
  | connClose c =>
    simp only [step, onClose]
    split
    · rw [settleErr_qrRetryCount]; exact h
    · exact h
  | reconnectTimer =>
    simp only [step, onReconnectTimer]
    split
    · exact Nat.zero_le _
    · exact h
  | messagesUpsert =>
    simp only [step, onMessagesUpsert]
    split
    · rw [settleOk_qrRetryCount]; exact h
    · exact h
  | globalTimeout =>
    simp only [step, onGlobalTimeout]
    split
    · split
      · rw [settleErr_qrRetryCount]; exact h
      · exact h
    · exact h

/-- Any event trace keeps the retry counter at most `QR_MAX_RETRY`. -/
theorem run_qrRetryCount_le (evs : List BotEvent) :
    ∀ s : BotState, s.qrRetryCount ≤ QR_MAX_RETRY →
      (run s evs).qrRetryCount ≤ QR_MAX_RETRY := by
  induction evs with
  | nil => intro s h; exact h
  | cons e evs ih =>
    intro s h
    exact ih (step s e).1 (step_qrRetryCount_le s e h)

/-- Within one connection cycle, each step raises the retry counter by
exactly the number of challenges it displays. -/
theorem step_qrRetryCount_cycle (s : BotState) (e : BotEvent)
    (h : cycleEvent e = true) :
    (step s e).1.qrRetryCount
      = s.qrRetryCount + (if (step s e).2 then 1 else 0) := by
  cases e with
  | qr =>
    simp only [step, onQr]
    split
    · simp
    · simp
  | qrTimer =>
    simp only [step, onQrTimer, if_false]
    split <;> simp
  | connOpen => simp [cycleEvent] at h
  | connClose c =>
    simp only [step, onClose, if_false]
    split
    · rw [settleErr_qrRetryCount]; simp
    · simp
  | reconnectTimer => simp [cycleEvent] at h
  | messagesUpsert =>
    simp only [step, onMessagesUpsert, if_false]
    split
    · rw [settleOk_qrRetryCount]; simp
    · simp
  | globalTimeout =>
    simp only [step, onGlobalTimeout, if_false]
    split
    · split
      · rw [settleErr_qrRetryCount]; simp
      · simp
    · simp

/-- Within one connection cycle, the final retry counter is the initial
counter plus the number of challenges the trace displayed. -/
theorem run_qrRetryCount_withinCycle (evs : List BotEvent) :
    ∀ s : BotState, withinCycle evs = true →
      (run s evs).qrRetryCount = s.qrRetryCount + issuedCount s evs := by
  induction evs with
  | nil => intro s _; simp [run, issuedCount]
  | cons e evs ih =>
    intro s h
    simp only [withinCycle, List.all_cons, Bool.and_eq_true] at h
    have h2 : withinCycle evs = true := h.2
    rw [run, issuedCount, ih (step s e).1 h2,
      step_qrRetryCount_cycle s e h.1]
    omega

/-! ## C5: global connect timeout -/

/-- C5, counterexample. The claim says every `connect()` invocation that has
not reached the Connected state when the global timeout fires fails with a
connection-timeout error.  From the initial state (no challenge displayed
yet, counter 0, not connected), firing the global timeout leaves the state
unchanged: the promise is still pending, no error is surfaced. -/
theorem C5_timeout_no_reject_cex :
    run botInit [BotEvent.globalTimeout] = botInit ∧
    botInit.isConnected = false ∧
    botInit.outcome = none := by decide

/-- C5, amended: when the global timeout fires while the session is not
connected, `connect()` is rejected (with the "Maximum QR code attempts
reached" error) only if the challenge counter has saturated at
`QR_MAX_RETRY`; with a smaller counter the callback only logs and the
promise stays pending, and a connected session is left untouched. -/
theorem C5_timeout_rejects_only_when_saturated (s : BotState) :
    (s.isConnected = false → QR_MAX_RETRY ≤ s.qrRetryCount →
      s.outcome = none →
      onGlobalTimeout s
        = { s with
             outcome := some
               (Except.error "Maximum QR code attempts reached") }) ∧
    (s.isConnected = false → s.qrRetryCount < QR_MAX_RETRY →
      onGlobalTimeout s = s) ∧
    (s.isConnected = true → onGlobalTimeout s = s) := by
  refine ⟨?_, ?_, ?_⟩
  · intro h1 h2 h3
    simp [onGlobalTimeout, settleErr, h1, h2, h3]
  · intro h1 h2
    simp [onGlobalTimeout, h1, Nat.not_le.mpr h2]
  · intro h1
    simp [onGlobalTimeout, h1]

/-- C5, witness: the amended behaviour at a concrete unconnected state with
a saturated counter and at the initial state. -/
theorem C5_timeout_rejects_only_when_saturated_witness :
    onGlobalTimeout
        { isConnected := false
          qrDisplayed := false
          qrTimerActive := false
          qrRetryCount := 3
          outcome := none }
      = { isConnected := false
          qrDisplayed := false
          qrTimerActive := false
          qrRetryCount := 3
          outcome := some
            (Except.error "Maximum QR code attempts reached") } ∧
    onGlobalTimeout botInit = botInit :=
  ⟨(C5_timeout_rejects_only_when_saturated _).1 rfl (by decide) rfl,
   (C5_timeout_rejects_only_when_saturated botInit).2.1 rfl (by decide)⟩

/-! ## C6: challenge-attempt cap -/

/-- The trace of C6's counterexample: three challenges displayed and timed
out, saturating the counter. -/
def cexTrace3 : List BotEvent :=
  [.qr, .qrTimer, .qr, .qrTimer, .qr, .qrTimer]

/-- C6, counterexample. The claim says the 4th would-be challenge issuance
yields a fatal "maximum challenge attempts reached" failure from `connect()`.
After three displayed-and-expired challenges the counter is saturated, yet a
4th QR event is silently ignored: no challenge is displayed and the promise
is still pending — no failure is surfaced at that point. -/
theorem C6_fourth_qr_silent_cex :
    (run botInit cexTrace3).qrRetryCount = QR_MAX_RETRY ∧
    step (run botInit cexTrace3) BotEvent.qr = (run botInit cexTrace3, false) ∧
    (step (run botInit cexTrace3) BotEvent.qr).1.outcome = none := by decide

/-- C6, amended: within one connection cycle challenge issuance never
exceeds `QR_MAX_RETRY = 3` attempts; a QR event arriving with a saturated
counter is ignored (no new challenge, no immediate failure); the fatal
"Maximum QR code attempts reached" rejection is produced only by the global
timeout firing while the session is still unconnected with the counter
saturated. -/
theorem C6_challenge_cap (s : BotState) (evs : List BotEvent) :
    (withinCycle evs = true → s.qrRetryCount ≤ QR_MAX_RETRY →
      s.qrRetryCount + issuedCount s evs ≤ QR_MAX_RETRY) ∧
    (QR_MAX_RETRY ≤ s.qrRetryCount → step s BotEvent.qr = (s, false)) ∧
    (s.isConnected = false → QR_MAX_RETRY ≤ s.qrRetryCount →
      s.outcome = none →
      (onGlobalTimeout s).outcome
        = some (Except.error "Maximum QR code attempts reached")) := by
  refine ⟨?_, ?_, ?_⟩
  · intro hc hle
    rw [← run_qrRetryCount_withinCycle evs s hc]
    exact run_qrRetryCount_le evs s hle
  · intro h
    simp [step, onQr, Nat.not_lt.mpr h]
  · intro h1 h2 h3
    simp [onGlobalTimeout, settleErr, h1, h2, h3]

/-- The witness trace for C6: four QR events, of which only three display a
challenge. -/
def wTrace4 : List BotEvent :=
  [.qr, .qrTimer, .qr, .qrTimer, .qr, .qrTimer, .qr]

/-- C6, witness: the cap applied to the concrete four-QR-event trace from
the initial state. -/
theorem C6_challenge_cap_witness :
    botInit.qrRetryCount + issuedCount botInit wTrace4 ≤ QR_MAX_RETRY :=
  (C6_challenge_cap botInit wTrace4).1 (by decide) (by decide)

/-! ## C7: transition to Connected -/

/-- The trace of C7's counterexample: two challenges displayed, the second
one still pending (timer armed). -/
def cexTrace2 : List BotEvent := [.qr, .qrTimer, .qr]

/-- C7, counterexample. The claim says a message event observed while the
session is not yet live transitions to Connected with the challenge timer
cleared AND the attempt counter reset AND the connectivity flag set.  In the
concrete reachable state with two challenges issued and the QR timer armed,
a `messages.upsert` event sets the connectivity flag but leaves the timer
armed and the counter at 2. -/
theorem C7_upsert_no_reset_cex :
    (run botInit cexTrace2).isConnected = false ∧
    (run botInit cexTrace2).qrTimerActive = true ∧
    (run botInit cexTrace2).qrRetryCount = 2 ∧
    (onMessagesUpsert (run botInit cexTrace2)).isConnected = true ∧
    (onMessagesUpsert (run botInit cexTrace2)).qrTimerActive = true ∧
    (onMessagesUpsert (run botInit cexTrace2)).qrRetryCount = 2 := by decide

/-- C7, amended: the connection-open handler performs all three effects
(timer cleared, counter reset to 0, connectivity flag set), but the
`messages.upsert` path, taken while the session is not yet marked live, only
sets the connectivity flag and resolves the promise — the challenge timer
and the attempt counter are left unchanged. -/
theorem C7_connected_effects (s : BotState) :
    ((onOpen s).isConnected = true ∧ (onOpen s).qrRetryCount = 0 ∧
      (onOpen s).qrTimerActive = false) ∧
    (s.isConnected = false →
      (onMessagesUpsert s).isConnected = true ∧
      (onMessagesUpsert s).qrRetryCount = s.qrRetryCount ∧
      (onMessagesUpsert s).qrTimerActive = s.qrTimerActive ∧
      (onMessagesUpsert s).qrDisplayed = s.qrDisplayed) := by
  constructor
  · refine ⟨?_, ?_, ?_⟩ <;> (unfold onOpen settleOk; split <;> rfl)
  · intro h
    refine ⟨?_, ?_, ?_, ?_⟩ <;>
      (unfold onMessagesUpsert settleOk; simp [h]; split <;> rfl)

/-- C7, witness: the message-event path at the concrete state reached after
one displayed challenge, and the open handler at the initial state. -/
theorem C7_connected_effects_witness :
    (onMessagesUpsert (run botInit [BotEvent.qr])).isConnected = true ∧
    (onMessagesUpsert (run botInit [BotEvent.qr])).qrRetryCount
      = (run botInit [BotEvent.qr]).qrRetryCount ∧
    (onOpen botInit).qrRetryCount = 0 :=
  ⟨((C7_connected_effects (run botInit [BotEvent.qr])).2 (by decide)).1,
   ((C7_connected_effects (run botInit [BotEvent.qr])).2 (by decide)).2.1,
   (C7_connected_effects botInit).1.2.1⟩

/-! ## C9: Notifier never raises -/

/-- If every restart yields a non-live connection state and the session is
not live to begin with, the retry loop exhausts its attempts and reports
failure rather than success. -/
theorem ensureLoop_never_live (restart : Nat → Except String ConnState)
    (h : ∀ j, ∃ c2, restart j = Except.ok c2 ∧ connLive c2 = false) :
    ∀ (n i : Nat) (c : ConnState), connLive c = false →
      ensureLoop restart n i c = Except.ok false := by
  intro n
  induction n with
  | zero => intro i c hc; simp [ensureLoop, hc]
  | succ n ih =>
    intro i c hc
    rw [ensureLoop]
    rw [if_neg (by simp [hc])]
    split
    · obtain ⟨c2, hre, hc2⟩ := h i
      rw [hre]
      exact ih (i + 1) c2 hc2
    · exact ih (i + 1) c hc

/-- C9: `sendWhatsAppMessage` never surfaces a failure.  When the 3-retry
connection loop reports the session could not be brought live, or throws,
the call returns `null` and no send is attempted; and when the actual
dispatch throws, the call still returns `null`.  In particular a session
that stays non-live through every restart makes the loop report failure. -/
theorem C9_send_never_raises (env : SendEnv) (msg : String) :
    (ensureWhatsAppConnection env.restart env.conn = Except.ok false →
      sendWhatsAppMessage env msg = (none, false)) ∧
    (∀ e, ensureWhatsAppConnection env.restart env.conn = Except.error e →
      sendWhatsAppMessage env msg = (none, false)) ∧
    (∀ e r, ensureWhatsAppConnection env.restart env.conn = Except.ok true →
      env.recipient = some r → r ≠ "" →
      env.sendMessage (normalizeJid r) msg = Except.error e →
      sendWhatsAppMessage env msg = (none, true)) ∧
    ((∀ j, ∃ c2, env.restart j = Except.ok c2 ∧ connLive c2 = false) →
      connLive env.conn = false →
      ensureWhatsAppConnection env.restart env.conn = Except.ok false) := by
  refine ⟨?_, ?_, ?_, ?_⟩
  · intro h
    simp only [sendWhatsAppMessage, h]
  · intro e h
    simp only [sendWhatsAppMessage, h]
  · intro e r h hr hne hsend
    simp only [sendWhatsAppMessage, h, hr, if_neg hne, hsend]
  · intro hrestarts hc
    exact ensureLoop_never_live env.restart hrestarts 3 0 env.conn hc

/-- A restart oracle whose sessions always come back without a user record
(never live). -/
def userlessRestart : Nat → Except String ConnState := fun _ =>
  Except.ok { isConnected := true, sockPresent := true, sockUser := false }

/-- A send environment whose session can never be brought live. -/
def deadEnv : SendEnv where
  restart := userlessRestart
  conn := { isConnected := false, sockPresent := false, sockUser := false }
  recipient := some "905551112233"
  sendMessage := fun _ _ => Except.ok "sent"

/-- A fully live connection state. -/
def liveConn : ConnState :=
  { isConnected := true, sockPresent := true, sockUser := true }

/-- A send environment with a live session whose dispatch call throws. -/
def failSendEnv : SendEnv where
  restart := fun _ => Except.ok liveConn
  conn := liveConn
  recipient := some "905551112233"
  sendMessage := fun _ _ => Except.error "Connection Closed"

/-- C9, witness: a never-live environment returns `null` with no send
attempted, and a live environment whose dispatch throws still returns
`null`. -/
theorem C9_send_never_raises_witness :
    sendWhatsAppMessage deadEnv "hello" = (none, false) ∧
    sendWhatsAppMessage failSendEnv "hello" = (none, true) :=
  ⟨(C9_send_never_raises deadEnv "hello").1
      ((C9_send_never_raises deadEnv "hello").2.2.2
        (fun j => ⟨{ isConnected := true, sockPresent := true,
                      sockUser := false }, rfl, rfl⟩) rfl),
   (C9_send_never_raises failSendEnv "hello").2.2.1 "Connection Closed"
      "905551112233" rfl rfl (by decide) rfl⟩

/-! ## C10: missing recipient -/

/-- C10: when `RECIPIENT_NUMBER` is not configured, `sendWhatsAppMessage`
returns `null` and never attempts a send, whatever the connection state —
in particular even when the session is live. -/
theorem C10_no_recipient_no_send (env : SendEnv) (msg : String)
    (h : env.recipient = none) :
    sendWhatsAppMessage env msg = (none, false) := by
  unfold sendWhatsAppMessage
  cases he : ensureWhatsAppConnection env.restart env.conn with
  | error e => rfl
  | ok b =>
    cases b with
    | false => rfl
    | true => rw [h]

/-- A send environment with a live session but no configured recipient. -/
def noRecipientEnv : SendEnv where
  restart := fun _ => Except.ok liveConn
  conn := liveConn
  recipient := none
  sendMessage := fun jid m => Except.ok ("sent:" ++ jid ++ ":" ++ m)

/-- C10, witness: a live session with an unset recipient yields `null`
without a send. -/
theorem C10_no_recipient_no_send_witness :
    connLive noRecipientEnv.conn = true ∧
    sendWhatsAppMessage noRecipientEnv "hello" = (none, false) :=
  ⟨rfl, C10_no_recipient_no_send noRecipientEnv "hello" rfl⟩

end DomainBot
